import Mathlib

/-!
Verification of the meme editor core: the layer-store reducer
(`memeEditorReducer` in src/meme_generator_frontend/src/hooks/useMemeEditor.js),
the canvas hit-test (`handleMouseDown` in
src/meme_generator_frontend/src/components/CanvasEditor.js) and the
render/share payload projection (RightPanel in the same hooks file).

Modelling conventions:
* JavaScript numbers are modelled as `Int` (coordinates, sizes, rotation) and
  layer ids as `Nat` (ids are assigned from the `nextLayerId` counter).
* A slot of the JS `textLayers` array is `Option TextLayer`; `none` models the
  JS value `undefined` (reachable: the MOVE_LAYER_UP branch can write
  `newLayers[0] = newLayers[-1]`, and reading index -1 of an array yields
  `undefined`).
* Array callbacks that read `layer.id` throw a TypeError when the element is
  `undefined`; the reducer is therefore `Except Unit EditorState`, with
  `.error ()` modelling a thrown exception.
-/

namespace MemeGen

/-- A text layer object, with the fields created by the ADD_TEXT_LAYER branch
of `memeEditorReducer` (useMemeEditor.js lines 41-55). -/
structure TextLayer where
  id : Nat
  text : String
  x : Int
  y : Int
  fontSize : Int
  fontFamily : String
  color : String
  strokeColor : String
  strokeWidth : Int
  textAlign : String
  rotation : Int
  width : Int
  height : Int
  deriving DecidableEq, Repr

/-- A slot of the JS `textLayers` array: a layer object or `undefined`. -/
abbrev JsVal := Option TextLayer

/-- The aggregate editor state (useMemeEditor.js lines 6-11). -/
structure EditorState where
  baseImage : Option String
  textLayers : List JsVal
  selectedLayerId : Option Nat
  nextLayerId : Nat
  deriving DecidableEq, Repr

/-- The initial state (useMemeEditor.js lines 6-11). -/
def initialState : EditorState :=
  { baseImage := none, textLayers := [], selectedLayerId := none, nextLayerId := 1 }

/-- A partial update object as passed to UPDATE_TEXT_LAYER: any subset of the
layer fields may be present (`{...layer, ...updates}` merges whatever keys the
caller supplies, including, structurally, `id`/`width`/`height`). -/
structure LayerPatch where
  id : Option Nat := none
  text : Option String := none
  x : Option Int := none
  y : Option Int := none
  fontSize : Option Int := none
  fontFamily : Option String := none
  color : Option String := none
  strokeColor : Option String := none
  strokeWidth : Option Int := none
  textAlign : Option String := none
  rotation : Option Int := none
  width : Option Int := none
  height : Option Int := none
  deriving DecidableEq, Repr

/-- The JS spread merge `{...layer, ...updates}`: a key present in `updates`
wins, an absent key keeps the layer's value. -/
def applyPatch (layer : TextLayer) (updates : LayerPatch) : TextLayer :=
  { id := updates.id.getD layer.id
    text := updates.text.getD layer.text
    x := updates.x.getD layer.x
    y := updates.y.getD layer.y
    fontSize := updates.fontSize.getD layer.fontSize
    fontFamily := updates.fontFamily.getD layer.fontFamily
    color := updates.color.getD layer.color
    strokeColor := updates.strokeColor.getD layer.strokeColor
    strokeWidth := updates.strokeWidth.getD layer.strokeWidth
    textAlign := updates.textAlign.getD layer.textAlign
    rotation := updates.rotation.getD layer.rotation
    width := updates.width.getD layer.width
    height := updates.height.getD layer.height }

/-- The actions dispatched to `memeEditorReducer` (useMemeEditor.js lines
16-25); `unknownAction` stands for any action type outside the eight known
ones, which falls to the `default` branch. -/
inductive Action where
  | setBaseImage (payload : Option String)
  | addTextLayer
  | updateTextLayer (id : Nat) (updates : LayerPatch)
  | deleteTextLayer (id : Nat)
  | selectLayer (payload : Option Nat)
  | moveLayerUp (id : Nat)
  | moveLayerDown (id : Nat)
  | reset
  | unknownAction (ty : String)
  deriving DecidableEq, Repr

/-- The default layer literal built by ADD_TEXT_LAYER (useMemeEditor.js lines
41-55), with `id = state.nextLayerId`. -/
def newLayerDefaults (nid : Nat) : TextLayer :=
  { id := nid
    text := "Double click to edit"
    x := 50
    y := 50
    fontSize := 48
    fontFamily := "Impact, Arial Black, sans-serif"
    color := "#FFFFFF"
    strokeColor := "#000000"
    strokeWidth := 2
    textAlign := "center"
    rotation := 0
    width := 300
    height := 60 }

/-- JS `textLayers.map(layer => layer.id === pid ? {...layer, ...updates} :
layer)` (useMemeEditor.js lines 66-70). The callback reads `layer.id`, so an
`undefined` element throws. -/
def jsMapUpdate (pid : Nat) (updates : LayerPatch) : List JsVal → Except Unit (List JsVal)
  | [] => .ok []
  | none :: _ => .error ()
  | some l :: rest =>
      (fun r => (if l.id = pid then some (applyPatch l updates) else some l) :: r) <$>
        jsMapUpdate pid updates rest

/-- JS `textLayers.filter(layer => layer.id !== pid)` (useMemeEditor.js lines
74-76). The callback reads `layer.id`, so an `undefined` element throws. -/
def jsFilterNe (pid : Nat) : List JsVal → Except Unit (List JsVal)
  | [] => .ok []
  | none :: _ => .error ()
  | some l :: rest =>
      (fun r => if l.id = pid then r else some l :: r) <$> jsFilterNe pid rest

/-- JS `textLayers.findIndex(l => l.id === pid)` (useMemeEditor.js lines 93,
105): -1 when no element matches; elements after the first match are not
visited; visiting an `undefined` element throws. -/
def jsFindIndex (pid : Nat) : List JsVal → Except Unit Int
  | [] => .ok (-1)
  | none :: _ => .error ()
  | some l :: rest =>
      if l.id = pid then .ok 0
      else (fun k => if k = -1 then -1 else k + 1) <$> jsFindIndex pid rest

/-- JS array element read `a[i]`: `undefined` for a negative or out-of-range
index. -/
def jsGet (l : List JsVal) (i : Int) : JsVal :=
  if i < 0 then none else l.getD i.toNat none

/-- JS array element write `a[i] = v`. A write at a negative index stores a
non-index property (invisible to the element list); a write past the end pads
with `undefined` holes. -/
def jsSet (l : List JsVal) (i : Int) (v : JsVal) : List JsVal :=
  if i < 0 then l
  else if i.toNat < l.length then l.set i.toNat v
  else l ++ List.replicate (i.toNat - l.length) none ++ [v]

/-- The MOVE_LAYER_UP destructuring swap
`[a[i], a[i+1]] = [a[i+1], a[i]]` on the copied array (useMemeEditor.js lines
96-99): both reads happen first, then `a[i]` and `a[i+1]` are written. -/
def jsSwapUp (l : List JsVal) (i : Int) : List JsVal :=
  jsSet (jsSet l i (jsGet l (i + 1))) (i + 1) (jsGet l i)

/-- The MOVE_LAYER_DOWN destructuring swap
`[a[j], a[j-1]] = [a[j-1], a[j]]` (useMemeEditor.js lines 108-111). -/
def jsSwapDown (l : List JsVal) (j : Int) : List JsVal :=
  jsSet (jsSet l j (jsGet l (j - 1))) (j - 1) (jsGet l j)

/-- JS `remainingLayers[0]?.id || null` (useMemeEditor.js line 82):
`undefined` first element (or empty array) gives `null` through `?.`; an id of
0 is falsy, so `0 || null` is also `null`. -/
def jsHeadSelect : List JsVal → Option Nat
  | [] => none
  | none :: _ => none
  | some l :: _ => if l.id = 0 then none else some l.id

/-- The reducer `memeEditorReducer(state, action)` (useMemeEditor.js lines
30-122), with thrown TypeErrors surfaced as `.error ()`. -/
def memeEditorReducer (state : EditorState) (action : Action) : Except Unit EditorState :=
  match action with
  | .setBaseImage payload =>
      .ok { state with baseImage := payload, textLayers := [], selectedLayerId := none }
  | .addTextLayer =>
      let newLayer := newLayerDefaults state.nextLayerId
      .ok { state with
              textLayers := state.textLayers ++ [some newLayer]
              selectedLayerId := some newLayer.id
              nextLayerId := state.nextLayerId + 1 }
  | .updateTextLayer pid updates =>
      match jsMapUpdate pid updates state.textLayers with
      | .error e => .error e
      | .ok tl => .ok { state with textLayers := tl }
  | .deleteTextLayer pid =>
      match jsFilterNe pid state.textLayers with
      | .error e => .error e
      | .ok remainingLayers =>
          .ok { state with
                  textLayers := remainingLayers
                  selectedLayerId :=
                    if state.selectedLayerId = some pid then jsHeadSelect remainingLayers
                    else state.selectedLayerId }
  | .selectLayer payload =>
      .ok { state with selectedLayerId := payload }
  | .moveLayerUp pid =>
      match jsFindIndex pid state.textLayers with
      | .error e => .error e
      | .ok upIndex =>
          if upIndex < (state.textLayers.length : Int) - 1 then
            .ok { state with textLayers := jsSwapUp state.textLayers upIndex }
          else .ok state
  | .moveLayerDown pid =>
      match jsFindIndex pid state.textLayers with
      | .error e => .error e
      | .ok downIndex =>
          if downIndex > 0 then
            .ok { state with textLayers := jsSwapDown state.textLayers downIndex }
          else .ok state
  | .reset => .ok initialState
  | .unknownAction _ => .ok state

/-- Sequential application of a list of actions through the reducer. -/
def applyActions (s : EditorState) : List Action → Except Unit EditorState
  | [] => .ok s
  | a :: rest =>
      match memeEditorReducer s a with
      | .ok s₁ => applyActions s₁ rest
      | .error e => .error e

/-- Selection consistency, as stated by the spec: `selectedLayerId` is null or
the id of some layer currently present in the layer sequence. -/
def selectionConsistent (s : EditorState) : Prop :=
  s.selectedLayerId = none ∨
    ∃ l : TextLayer, some l ∈ s.textLayers ∧ s.selectedLayerId = some l.id

/-- Recognizes Add/Delete transitions (the transitions claim C2 ranges over). -/
def isAddOrDelete : Action → Bool
  | .addTextLayer => true
  | .deleteTextLayer _ => true
  | _ => false

/-- The boolean the DELETE_TEXT_LAYER filter callback computes on a slot that
did not throw: keep the slot when its id differs from the payload (on a
`none` slot the callback would throw; the value here is irrelevant and only
used on lists without `none`). -/
def keepNe (pid : Nat) : JsVal → Bool
  | none => true
  | some p => p.id != pid

/-- An array slot holding a proper layer object whose id differs from `i`. -/
def isOtherLayer (i : Nat) : JsVal → Bool
  | none => false
  | some p => p.id != i

/-- An array slot holding a proper layer object whose id differs from `i` and
is nonzero. -/
def isOtherLayerNZ (i : Nat) : JsVal → Bool
  | none => false
  | some p => p.id != i && p.id != 0

/-- Spec-side description used by claim C7: the id of the first remaining
layer, or null when none remain. -/
def firstIdSpec : List JsVal → Option Nat
  | some p :: _ => some p.id
  | _ => none

/-- The axis-aligned containment test of `handleMouseDown` (CanvasEditor.js
lines 105-110): `x >= layer.x && x <= layer.x + layer.width && y >= layer.y
&& y <= layer.y + layer.height`. It never reads `layer.rotation`. -/
def containsPoint (layer : TextLayer) (x y : Int) : Bool :=
  decide (x ≥ layer.x) && decide (x ≤ layer.x + layer.width) &&
    decide (y ≥ layer.y) && decide (y ≤ layer.y + layer.height)

/-- The hit-test loop of `handleMouseDown` (CanvasEditor.js lines 103-116):
`for (let i = textLayers.length - 1; i >= 0; i--)` stopping (break) at the
first layer whose box contains the point — the first match of the reversed
array. -/
def hitTest (textLayers : List TextLayer) (x y : Int) : Option TextLayer :=
  textLayers.reverse.find? (fun layer => containsPoint layer x y)

/-- A layer object of the request body sent to the render/share endpoints: it
has exactly the ten fields listed in the object literal (RightPanel, hooks
file lines 233-244 and 274-285) and no `id`, `width` or `height`. -/
structure PayloadLayer where
  text : String
  x : Int
  y : Int
  fontSize : Int
  fontFamily : String
  color : String
  strokeColor : String
  strokeWidth : Int
  textAlign : String
  rotation : Int
  deriving DecidableEq, Repr

/-- The `textLayers` array of the `renderMeme` request built by
`RightPanel.generatePreview` (hooks file lines 231-245). -/
def generatePreviewLayers (textLayers : List TextLayer) : List PayloadLayer :=
  textLayers.map (fun layer =>
    { text := layer.text
      x := layer.x
      y := layer.y
      fontSize := layer.fontSize
      fontFamily := layer.fontFamily
      color := layer.color
      strokeColor := layer.strokeColor
      strokeWidth := layer.strokeWidth
      textAlign := layer.textAlign
      rotation := layer.rotation })

/-- The `textLayers` array of the `shareMeme` request built by
`RightPanel.handleShare` (hooks file lines 272-286); the object literal is the
same as in `generatePreview`. -/
def handleShareLayers (textLayers : List TextLayer) : List PayloadLayer :=
  textLayers.map (fun layer =>
    { text := layer.text
      x := layer.x
      y := layer.y
      fontSize := layer.fontSize
      fontFamily := layer.fontFamily
      color := layer.color
      strokeColor := layer.strokeColor
      strokeWidth := layer.strokeWidth
      textAlign := layer.textAlign
      rotation := layer.rotation })

/-- The per-layer projection both payload builders apply. -/
def toPayloadLayer (layer : TextLayer) : PayloadLayer :=
  { text := layer.text
    x := layer.x
    y := layer.y
    fontSize := layer.fontSize
    fontFamily := layer.fontFamily
    color := layer.color
    strokeColor := layer.strokeColor
    strokeWidth := layer.strokeWidth
    textAlign := layer.textAlign
    rotation := layer.rotation }

/-! ## Theorems -/

/-- C1 (code bug): MOVE_LAYER_UP with an id that matches no layer is not a
silent no-op. On a one-layer state, `findIndex` yields -1, the guard
`-1 < length - 1` passes, and the destructuring swap writes
`newLayers[0] = newLayers[-1] = undefined`: the resulting state differs from
the input and its layer array holds `undefined`, so the very next
DELETE_TEXT_LAYER throws a TypeError inside the `filter` callback — the
reducer is not total on the states it itself produces. -/
theorem c1_moveLayerUp_invalid_id_corrupts :
    memeEditorReducer
        { baseImage := none, textLayers := [some (newLayerDefaults 1)],
          selectedLayerId := none, nextLayerId := 2 } (.moveLayerUp 2) =
      .ok { baseImage := none, textLayers := [none], selectedLayerId := none,
            nextLayerId := 2 } ∧
    ({ baseImage := none, textLayers := [none], selectedLayerId := none,
       nextLayerId := 2 } : EditorState) ≠
      { baseImage := none, textLayers := [some (newLayerDefaults 1)],
        selectedLayerId := none, nextLayerId := 2 } ∧
    memeEditorReducer
        { baseImage := none, textLayers := [none], selectedLayerId := none,
          nextLayerId := 2 } (.deleteTextLayer 1) = .error () := by
  refine ⟨rfl, ?_, rfl⟩
  decide

/-- C3, counterexample: RESET does decrement the counter. From a state with
`nextLayerId = 2`, RESET returns the initial state, whose `nextLayerId` is 1,
strictly below the input's 2 — so the claim's "including Reset" is false. -/
theorem c3_reset_decrements_nextLayerId :
    memeEditorReducer
        { baseImage := none, textLayers := [], selectedLayerId := none,
          nextLayerId := 2 } .reset = .ok initialState ∧
    initialState.nextLayerId < 2 :=
  ⟨rfl, by decide⟩

/-- C3, amended: for every state and every transition other than Reset, the
resulting `nextLayerId` is greater than or equal to the input state's (Reset
alone returns the counter to its initial value 1). -/
theorem c3_nextLayerId_monotone (s : EditorState) (a : Action) (s' : EditorState)
    (hne : a ≠ Action.reset) (h : memeEditorReducer s a = .ok s') :
    s.nextLayerId ≤ s'.nextLayerId := by
  cases a with
  | setBaseImage p =>
      injection h with h
      subst h
      exact Nat.le_refl _
  | addTextLayer =>
      injection h with h
      subst h
      exact Nat.le_succ _
  | updateTextLayer pid updates =>
      dsimp only [memeEditorReducer] at h
      split at h
      · exact absurd h (by simp)
      · injection h with h
        subst h
        exact Nat.le_refl _
  | deleteTextLayer pid =>
      dsimp only [memeEditorReducer] at h
      split at h
      · exact absurd h (by simp)
      · injection h with h
        subst h
        exact Nat.le_refl _
  | selectLayer p =>
      injection h with h
      subst h
      exact Nat.le_refl _
  | moveLayerUp pid =>
      dsimp only [memeEditorReducer] at h
      split at h
      · exact absurd h (by simp)
      · split at h <;> (injection h with h; subst h; exact Nat.le_refl _)
  | moveLayerDown pid =>
      dsimp only [memeEditorReducer] at h
      split at h
      · exact absurd h (by simp)
      · split at h <;> (injection h with h; subst h; exact Nat.le_refl _)
  | reset => exact absurd rfl hne
  | unknownAction ty =>
      injection h with h
      subst h
      exact Nat.le_refl _

/-- Witness for the amended C3: adding a layer to the initial state raises the
counter from 1 to 2, and the theorem applies. -/
theorem c3_nextLayerId_monotone_witness :
    initialState.nextLayerId ≤
      ({ baseImage := none, textLayers := [some (newLayerDefaults 1)],
         selectedLayerId := some 1, nextLayerId := 2 } : EditorState).nextLayerId :=
  c3_nextLayerId_monotone initialState .addTextLayer _ (by decide) rfl

/-- Helper: on a layer array without `undefined` slots, the DELETE filter
callback never throws and computes an ordinary filter. -/
theorem jsFilterNe_eq_filter (pid : Nat) :
    ∀ l : List JsVal, (∀ w ∈ l, w ≠ none) →
      jsFilterNe pid l = .ok (l.filter (keepNe pid)) := by
  intro l
  induction l with
  | nil => intro _; rfl
  | cons w rest ih =>
      intro hcl
      cases w with
      | none => exact absurd rfl (hcl none (List.mem_cons_self _ _))
      | some p =>
          have hrest := ih (fun v hv => hcl v (List.mem_cons_of_mem _ hv))
          by_cases hp : p.id = pid
          · simp [jsFilterNe, hrest, List.filter_cons, keepNe, hp]
          · simp [jsFilterNe, hrest, List.filter_cons, keepNe, hp]

/-- Helper: one Add or Delete step preserves cleanliness of the layer array
and selection consistency. -/
theorem addDelete_step (s s' : EditorState) (a : Action)
    (ha : isAddOrDelete a = true)
    (hclean : ∀ w ∈ s.textLayers, w ≠ none)
    (hsel : selectionConsistent s)
    (h : memeEditorReducer s a = .ok s') :
    (∀ w ∈ s'.textLayers, w ≠ none) ∧ selectionConsistent s' := by
  cases a with
  | setBaseImage p => simp [isAddOrDelete] at ha
  | updateTextLayer pid updates => simp [isAddOrDelete] at ha
  | selectLayer p => simp [isAddOrDelete] at ha
  | moveLayerUp pid => simp [isAddOrDelete] at ha
  | moveLayerDown pid => simp [isAddOrDelete] at ha
  | reset => simp [isAddOrDelete] at ha
  | unknownAction ty => simp [isAddOrDelete] at ha
  | addTextLayer =>
      injection h with h
      subst h
      refine ⟨?_, ?_⟩
      · intro w hw
        rcases List.mem_append.mp hw with hw | hw
        · exact hclean w hw
        · simp only [List.mem_singleton] at hw
          subst hw
          simp
      · exact Or.inr ⟨newLayerDefaults s.nextLayerId, by simp, rfl⟩
  | deleteTextLayer pid =>
      have hf := jsFilterNe_eq_filter pid s.textLayers hclean
      dsimp only [memeEditorReducer] at h
      rw [hf] at h
      injection h with h
      subst h
      have hmemfil : ∀ w ∈ s.textLayers.filter (keepNe pid), w ∈ s.textLayers :=
        fun w hw => (List.mem_filter.mp hw).1
      refine ⟨fun w hw => hclean w (hmemfil w hw), ?_⟩
      by_cases hsp : s.selectedLayerId = some pid
      · simp only [selectionConsistent, hsp, if_pos rfl]
        cases hh : s.textLayers.filter (keepNe pid) with
        | nil => exact Or.inl (by simp [hh, jsHeadSelect])
        | cons w rest =>
            have hw : w ∈ s.textLayers := hmemfil w (hh ▸ List.mem_cons_self _ _)
            cases w with
            | none => exact absurd rfl (hclean none hw)
            | some p =>
                by_cases hp0 : p.id = 0
                · exact Or.inl (by simp [hh, jsHeadSelect, hp0])
                · refine Or.inr ⟨p, ?_, ?_⟩
                  · simp [hh]
                  · simp [hh, jsHeadSelect, hp0]
      · rcases hsel with hnone | ⟨l, hmem, heq⟩
        · exact Or.inl (by simpa [selectionConsistent, hsp] using hnone)
        · refine Or.inr ⟨l, ?_, ?_⟩
          · have hlid : l.id ≠ pid := by
              intro hcontra
              exact hsp (by rw [heq, hcontra])
            exact List.mem_filter.mpr ⟨hmem, by simp [keepNe, hlid]⟩
          · simpa [selectionConsistent, hsp] using heq

/-- C2: starting from the initial state, after any sequence of AddTextLayer
and DeleteTextLayer transitions, `selectedLayerId` is either null or the id of
some layer currently present in the layer sequence. -/
theorem c2_selection_consistency (acts : List Action) (s' : EditorState)
    (hacts : ∀ a ∈ acts, isAddOrDelete a = true)
    (happ : applyActions initialState acts = .ok s') :
    selectionConsistent s' := by
  suffices hgen : ∀ (l : List Action) (s t : EditorState),
      (∀ a ∈ l, isAddOrDelete a = true) →
      (∀ w ∈ s.textLayers, w ≠ none) → selectionConsistent s →
      applyActions s l = .ok t → selectionConsistent t by
    exact hgen acts initialState s' hacts (by simp [initialState]) (Or.inl rfl) happ
  intro l
  induction l with
  | nil =>
      intro s t _ _ hs h
      injection h with h
      subst h
      exact hs
  | cons a rest ih =>
      intro s t hall hclean hsel h
      dsimp only [applyActions] at h
      cases hm : memeEditorReducer s a with
      | error e => rw [hm] at h; cases h
      | ok s₁ =>
          rw [hm] at h
          obtain ⟨hc₁, hs₁⟩ :=
            addDelete_step s s₁ a (hall a (List.mem_cons_self _ _)) hclean hsel hm
          exact ih s₁ t (fun b hb => hall b (List.mem_cons_of_mem _ hb)) hc₁ hs₁ h

/-- Witness for C2: two adds, a delete of layer 1, an add, a delete of the
selected layer 2; the final selection (layer 3) is present. -/
theorem c2_selection_consistency_witness :
    selectionConsistent
      { baseImage := none, textLayers := [some (newLayerDefaults 3)],
        selectedLayerId := some 3, nextLayerId := 4 } :=
  c2_selection_consistency
    [.addTextLayer, .addTextLayer, .deleteTextLayer 1, .addTextLayer,
     .deleteTextLayer 2] _ (by decide) rfl

/-- Helper: reading a natural index is an ordinary list lookup. -/
theorem jsGet_natCast (l : List JsVal) (n : Nat) : jsGet l (n : Int) = l.getD n none := by
  rw [jsGet, if_neg (by omega), Int.toNat_natCast]

/-- Helper: plain lookup just past a prefix. -/
theorem getD_append_len (P R : List JsVal) (w : JsVal) :
    (P ++ w :: R).getD P.length none = w := by
  induction P with
  | nil => rfl
  | cons a P ih => exact ih

/-- Helper: plain update just past a prefix. -/
theorem set_append_len (P R : List JsVal) (w v : JsVal) :
    (P ++ w :: R).set P.length v = P ++ v :: R := by
  induction P with
  | nil => rfl
  | cons a P ih => exact congrArg (List.cons a) ih

/-- Helper: JS read at the index of the slot after a prefix. -/
theorem jsGet_at_append (P R : List JsVal) (w : JsVal) :
    jsGet (P ++ w :: R) (P.length : Int) = w := by
  rw [jsGet_natCast, getD_append_len]

/-- Helper: JS read one past the prefix. -/
theorem jsGet_at_append_succ (P R : List JsVal) (a b : JsVal) :
    jsGet (P ++ a :: b :: R) ((P.length : Int) + 1) = b := by
  have h1 : P ++ a :: b :: R = (P ++ [a]) ++ b :: R := by simp
  have h2 : ((P.length : Int) + 1) = (((P ++ [a]).length : Nat) : Int) := by
    push_cast [List.length_append, List.length_singleton]
    ring
  rw [h1, h2, jsGet_at_append]

/-- Helper: JS in-range write at a natural index. -/
theorem jsSet_natCast_lt (l : List JsVal) (n : Nat) (v : JsVal) (h : n < l.length) :
    jsSet l (n : Int) v = l.set n v := by
  rw [jsSet, if_neg (by omega), Int.toNat_natCast, if_pos h]

/-- Helper: JS write at the index of the slot after a prefix. -/
theorem jsSet_at_append (P R : List JsVal) (w v : JsVal) :
    jsSet (P ++ w :: R) (P.length : Int) v = P ++ v :: R := by
  rw [jsSet_natCast_lt _ _ _ (by simp), set_append_len]

/-- Helper: JS write one past the prefix. -/
theorem jsSet_at_append_succ (P R : List JsVal) (a b v : JsVal) :
    jsSet (P ++ a :: b :: R) ((P.length : Int) + 1) v = P ++ a :: v :: R := by
  have h1 : P ++ a :: b :: R = (P ++ [a]) ++ b :: R := by simp
  have h2 : ((P.length : Int) + 1) = (((P ++ [a]).length : Nat) : Int) := by
    push_cast [List.length_append, List.length_singleton]
    ring
  have h3 := jsSet_at_append (P ++ [a]) R b v
  rw [h1, h2, h3]
  simp

/-- Helper: the MOVE_LAYER_UP swap at the index just past a prefix swaps the
two adjacent slots. -/
theorem jsSwapUp_append (P R : List JsVal) (a b : JsVal) :
    jsSwapUp (P ++ a :: b :: R) (P.length : Int) = P ++ b :: a :: R := by
  rw [jsSwapUp, jsGet_at_append_succ, jsGet_at_append, jsSet_at_append]
  exact jsSet_at_append_succ P R b b a

/-- Helper: the MOVE_LAYER_DOWN swap at the index one past a prefix swaps the
two adjacent slots back. -/
theorem jsSwapDown_append (P R : List JsVal) (a b : JsVal) :
    jsSwapDown (P ++ a :: b :: R) ((P.length : Int) + 1) = P ++ b :: a :: R := by
  have hsub : ((P.length : Int) + 1) - 1 = (P.length : Int) := by ring
  rw [jsSwapDown, hsub, jsGet_at_append_succ, jsGet_at_append, jsSet_at_append_succ,
    jsSet_at_append]

/-- Helper: `findIndex` over a non-matching, non-throwing prefix followed by a
match returns the prefix length. -/
theorem jsFindIndex_prefix (i : Nat) :
    ∀ P : List JsVal, (∀ w ∈ P, isOtherLayer i w = true) →
      ∀ (l : TextLayer) (R : List JsVal), l.id = i →
        jsFindIndex i (P ++ some l :: R) = .ok (P.length : Int) := by
  intro P
  induction P with
  | nil =>
      intro _ l R hl
      simp [jsFindIndex, hl]
  | cons w P ih =>
      intro hP l R hl
      cases w with
      | none =>
          have hw := hP none (List.mem_cons_self _ _)
          simp [isOtherLayer] at hw
      | some p =>
          have hp : p.id ≠ i := by
            have hw := hP (some p) (List.mem_cons_self _ _)
            simpa [isOtherLayer] using hw
          have hrec := ih (fun v hv => hP v (List.mem_cons_of_mem _ hv)) l R hl
          show jsFindIndex i (some p :: (P ++ some l :: R)) = .ok ((P.length + 1 : Nat) : Int)
          rw [jsFindIndex, if_neg hp, hrec]
          show Except.ok (if (P.length : Int) = -1 then -1 else (P.length : Int) + 1) = _
          rw [if_neg (by omega)]
          norm_num

/-- C4, counterexample: in the state whose layer sequence is
`[id 3, id 1 (text "A"), id 1 (text "B"), id 4]`, the id 1 occupies positions
1 and 2 of the four-slot sequence — neither the topmost (3) nor the bottommost
(0) position — yet MoveLayerUp(1) followed by MoveLayerDown(1) yields the
sequence `[B, id 3, A, id 4]`, not the original: with a duplicated id the two
`findIndex` calls pick different occurrences and the swaps do not invert. -/
theorem c4_roundtrip_counterexample :
    applyActions
        { baseImage := none,
          textLayers := [some (newLayerDefaults 3),
            some { newLayerDefaults 1 with text := "A" },
            some { newLayerDefaults 1 with text := "B" },
            some (newLayerDefaults 4)],
          selectedLayerId := none, nextLayerId := 5 }
        [.moveLayerUp 1, .moveLayerDown 1] =
      .ok { baseImage := none,
            textLayers := [some { newLayerDefaults 1 with text := "B" },
              some (newLayerDefaults 3),
              some { newLayerDefaults 1 with text := "A" },
              some (newLayerDefaults 4)],
            selectedLayerId := none, nextLayerId := 5 } ∧
    ([some { newLayerDefaults 1 with text := "B" },
      some (newLayerDefaults 3),
      some { newLayerDefaults 1 with text := "A" },
      some (newLayerDefaults 4)] : List JsVal) ≠
      [some (newLayerDefaults 3),
        some { newLayerDefaults 1 with text := "A" },
        some { newLayerDefaults 1 with text := "B" },
        some (newLayerDefaults 4)] :=
  ⟨rfl, by decide⟩

/-- C4, amended: for every state whose layer sequence splits as
`P ++ [L, M] ++ Q` where L carries the given id, every slot of P is a proper
layer with a different id, and M is a proper layer with a different id (so
the id's first occurrence is not topmost and the slot above it does not share
the id), MoveLayerUp(id) followed immediately by MoveLayerDown(id) restores
the original layer sequence. -/
theorem c4_moveUp_moveDown_roundtrip (s : EditorState) (i : Nat)
    (P Q : List JsVal) (l m : TextLayer)
    (hdecomp : s.textLayers = P ++ some l :: some m :: Q)
    (hP : ∀ w ∈ P, isOtherLayer i w = true)
    (hl : l.id = i) (hm : m.id ≠ i) :
    ∃ s₁ s₂, memeEditorReducer s (.moveLayerUp i) = .ok s₁ ∧
      memeEditorReducer s₁ (.moveLayerDown i) = .ok s₂ ∧
      s₂.textLayers = s.textLayers := by
  have hfi : jsFindIndex i s.textLayers = .ok (P.length : Int) := by
    rw [hdecomp]
    exact jsFindIndex_prefix i P hP l (some m :: Q) hl
  have hguard : (P.length : Int) < (s.textLayers.length : Int) - 1 := by
    rw [hdecomp]
    simp [List.length_append]
    omega
  have hswap : jsSwapUp s.textLayers (P.length : Int) = P ++ some m :: some l :: Q := by
    rw [hdecomp]
    exact jsSwapUp_append P Q (some l) (some m)
  refine ⟨{ s with textLayers := P ++ some m :: some l :: Q },
    { s with textLayers :=
        jsSwapDown (P ++ some m :: some l :: Q) ((P.length : Int) + 1) },
    ?_, ?_, ?_⟩
  · dsimp only [memeEditorReducer]
    rw [hfi]
    dsimp only
    rw [if_pos hguard, hswap]
  · dsimp only [memeEditorReducer]
    have hP' : ∀ w ∈ P ++ [some m], isOtherLayer i w = true := by
      intro w hw
      rcases List.mem_append.mp hw with hw | hw
      · exact hP w hw
      · simp only [List.mem_singleton] at hw
        subst hw
        simpa [isOtherLayer] using hm
    have hfi₂ : jsFindIndex i (P ++ some m :: some l :: Q) = .ok ((P.length : Int) + 1) := by
      have hx := jsFindIndex_prefix i (P ++ [some m]) hP' l Q hl
      have hshape : (P ++ [some m]) ++ some l :: Q = P ++ some m :: some l :: Q := by simp
      have hc : (((P ++ [some m]).length : Nat) : Int) = (P.length : Int) + 1 := by
        push_cast [List.length_append, List.length_singleton]
        ring
      rw [hshape, hc] at hx
      exact hx
    rw [hfi₂]
    dsimp only
    rw [if_pos (by omega)]
  · show jsSwapDown (P ++ some m :: some l :: Q) ((P.length : Int) + 1) = s.textLayers
    rw [jsSwapDown_append, hdecomp]

/-- Witness for the amended C4: with layers `[id 2, id 1, id 3, id 4]`, moving
layer 1 up and then down restores the sequence. -/
theorem c4_moveUp_moveDown_roundtrip_witness :
    ∃ s₁ s₂,
      memeEditorReducer
          { baseImage := none,
            textLayers := [some (newLayerDefaults 2), some (newLayerDefaults 1),
              some (newLayerDefaults 3), some (newLayerDefaults 4)],
            selectedLayerId := none, nextLayerId := 5 } (.moveLayerUp 1) = .ok s₁ ∧
      memeEditorReducer s₁ (.moveLayerDown 1) = .ok s₂ ∧
      s₂.textLayers =
        ({ baseImage := none,
           textLayers := [some (newLayerDefaults 2), some (newLayerDefaults 1),
             some (newLayerDefaults 3), some (newLayerDefaults 4)],
           selectedLayerId := none, nextLayerId := 5 } : EditorState).textLayers :=
  c4_moveUp_moveDown_roundtrip _ 1 [some (newLayerDefaults 2)]
    [some (newLayerDefaults 4)] (newLayerDefaults 1) (newLayerDefaults 3)
    rfl (by decide) rfl (by decide)

/-- C5: applying SET_BASE_IMAGE with the same url twice yields, both times, an
empty layer list and a null selection, and the two resulting states agree on
all observable fields (baseImage, layers, selection). -/
theorem c5_setBaseImage_idempotent (s : EditorState) (u : String)
    (s₁ s₂ : EditorState)
    (h₁ : memeEditorReducer s (.setBaseImage (some u)) = .ok s₁)
    (h₂ : memeEditorReducer s₁ (.setBaseImage (some u)) = .ok s₂) :
    s₁.textLayers = [] ∧ s₁.selectedLayerId = none ∧
    s₂.textLayers = [] ∧ s₂.selectedLayerId = none ∧
    s₁.baseImage = s₂.baseImage ∧ s₁.textLayers = s₂.textLayers ∧
    s₁.selectedLayerId = s₂.selectedLayerId := by
  injection h₁ with h₁
  subst h₁
  injection h₂ with h₂
  subst h₂
  exact ⟨rfl, rfl, rfl, rfl, rfl, rfl, rfl⟩

/-- Witness for C5 at a state that already has a layer and a selection. -/
theorem c5_setBaseImage_idempotent_witness :
    ({ baseImage := some "img", textLayers := [], selectedLayerId := none,
       nextLayerId := 2 } : EditorState).textLayers = [] ∧
    ({ baseImage := some "img", textLayers := [], selectedLayerId := none,
       nextLayerId := 2 } : EditorState).selectedLayerId = none ∧
    ({ baseImage := some "img", textLayers := [], selectedLayerId := none,
       nextLayerId := 2 } : EditorState).textLayers = [] ∧
    ({ baseImage := some "img", textLayers := [], selectedLayerId := none,
       nextLayerId := 2 } : EditorState).selectedLayerId = none ∧
    ({ baseImage := some "img", textLayers := [], selectedLayerId := none,
       nextLayerId := 2 } : EditorState).baseImage =
      ({ baseImage := some "img", textLayers := [], selectedLayerId := none,
         nextLayerId := 2 } : EditorState).baseImage ∧
    ({ baseImage := some "img", textLayers := [], selectedLayerId := none,
       nextLayerId := 2 } : EditorState).textLayers =
      ({ baseImage := some "img", textLayers := [], selectedLayerId := none,
         nextLayerId := 2 } : EditorState).textLayers ∧
    ({ baseImage := some "img", textLayers := [], selectedLayerId := none,
       nextLayerId := 2 } : EditorState).selectedLayerId =
      ({ baseImage := some "img", textLayers := [], selectedLayerId := none,
         nextLayerId := 2 } : EditorState).selectedLayerId :=
  c5_setBaseImage_idempotent
    { baseImage := none, textLayers := [some (newLayerDefaults 1)],
      selectedLayerId := some 1, nextLayerId := 2 } "img" _ _ rfl rfl

/-- Helper: the UPDATE map leaves a run of non-matching proper layers alone. -/
theorem jsMapUpdate_skip (i : Nat) (u : LayerPatch) :
    ∀ L : List JsVal, (∀ w ∈ L, isOtherLayer i w = true) →
      jsMapUpdate i u L = .ok L := by
  intro L
  induction L with
  | nil => intro _; rfl
  | cons w L ih =>
      intro hL
      cases w with
      | none =>
          have hw := hL none (List.mem_cons_self _ _)
          simp [isOtherLayer] at hw
      | some p =>
          have hp : p.id ≠ i := by
            have hw := hL (some p) (List.mem_cons_self _ _)
            simpa [isOtherLayer] using hw
          have hrec := ih (fun v hv => hL v (List.mem_cons_of_mem _ hv))
          simp [jsMapUpdate, hp, hrec]

/-- Helper: the UPDATE map distributes over append. -/
theorem jsMapUpdate_append (i : Nat) (u : LayerPatch) :
    ∀ (P R P' R' : List JsVal), jsMapUpdate i u P = .ok P' →
      jsMapUpdate i u R = .ok R' →
      jsMapUpdate i u (P ++ R) = .ok (P' ++ R') := by
  intro P
  induction P with
  | nil =>
      intro R P' R' hP hR
      injection hP with hP
      subst hP
      simpa using hR
  | cons w P ih =>
      intro R P' R' hP hR
      cases w with
      | none => exact absurd hP (by simp [jsMapUpdate])
      | some p =>
          rw [jsMapUpdate] at hP
          cases hm : jsMapUpdate i u P with
          | error e => rw [hm] at hP; cases hP
          | ok P₁ =>
              rw [hm] at hP
              injection hP with hP
              subst hP
              have := ih R P₁ R' hm hR
              simp [jsMapUpdate, this]

/-- Helper: the DELETE filter keeps a run of non-matching proper layers. -/
theorem jsFilterNe_skip (i : Nat) :
    ∀ L : List JsVal, (∀ w ∈ L, isOtherLayer i w = true) →
      jsFilterNe i L = .ok L := by
  intro L
  induction L with
  | nil => intro _; rfl
  | cons w L ih =>
      intro hL
      cases w with
      | none =>
          have hw := hL none (List.mem_cons_self _ _)
          simp [isOtherLayer] at hw
      | some p =>
          have hp : p.id ≠ i := by
            have hw := hL (some p) (List.mem_cons_self _ _)
            simpa [isOtherLayer] using hw
          have hrec := ih (fun v hv => hL v (List.mem_cons_of_mem _ hv))
          simp [jsFilterNe, hp, hrec]

/-- Helper: the DELETE filter distributes over append. -/
theorem jsFilterNe_append (i : Nat) :
    ∀ (P R P' R' : List JsVal), jsFilterNe i P = .ok P' →
      jsFilterNe i R = .ok R' →
      jsFilterNe i (P ++ R) = .ok (P' ++ R') := by
  intro P
  induction P with
  | nil =>
      intro R P' R' hP hR
      injection hP with hP
      subst hP
      simpa using hR
  | cons w P ih =>
      intro R P' R' hP hR
      cases w with
      | none => exact absurd hP (by simp [jsFilterNe])
      | some p =>
          rw [jsFilterNe] at hP
          cases hm : jsFilterNe i P with
          | error e => rw [hm] at hP; cases hP
          | ok P₁ =>
              rw [hm] at hP
              injection hP with hP
              subst hP
              have hrec := ih R P₁ R' hm hR
              by_cases hp : p.id = i
              · simp [jsFilterNe, hrec, hp]
              · simp [jsFilterNe, hrec, hp]

/-- Helper: a proper non-matching slot with nonzero id is in particular a
proper non-matching slot. -/
theorem isOtherLayerNZ_imp (i : Nat) (w : JsVal)
    (h : isOtherLayerNZ i w = true) : isOtherLayer i w = true := by
  cases w with
  | none => simp [isOtherLayerNZ] at h
  | some p =>
      simp only [isOtherLayerNZ, Bool.and_eq_true] at h
      simpa [isOtherLayer] using h.1

/-- Helper: over slots that hold proper layers with nonzero ids, the JS
fallback `remaining[0]?.id || null` agrees with "id of the first layer, or
null". -/
theorem jsHeadSelect_eq_firstIdSpec (i : Nat) (L : List JsVal)
    (hL : ∀ w ∈ L, isOtherLayerNZ i w = true) :
    jsHeadSelect L = firstIdSpec L := by
  cases L with
  | nil => rfl
  | cons w L =>
      cases w with
      | none =>
          have hw := hL none (List.mem_cons_self _ _)
          simp [isOtherLayerNZ] at hw
      | some p =>
          have hp : p.id ≠ 0 := by
            have hw := hL (some p) (List.mem_cons_self _ _)
            simp only [isOtherLayerNZ, Bool.and_eq_true, bne_iff_ne] at hw
            exact hw.2
          simp [jsHeadSelect, firstIdSpec, hp]

/-- C6, counterexample: in a state with two layers that share id 1 (texts "A"
and "B"), UpdateTextLayer(1, {fontSize: 80}) patches both of them: the
layer other than the targeted one does not stay unchanged, so the claim as
stated (quantified over every state) fails. -/
theorem c6_update_counterexample :
    memeEditorReducer
        { baseImage := none,
          textLayers := [some { newLayerDefaults 1 with text := "A" },
            some { newLayerDefaults 1 with text := "B" }],
          selectedLayerId := none, nextLayerId := 2 }
        (.updateTextLayer 1 { fontSize := some 80 }) =
      .ok { baseImage := none,
            textLayers := [some { newLayerDefaults 1 with text := "A", fontSize := 80 },
              some { newLayerDefaults 1 with text := "B", fontSize := 80 }],
            selectedLayerId := none, nextLayerId := 2 } ∧
    (some { newLayerDefaults 1 with text := "B", fontSize := 80 } : JsVal) ≠
      some { newLayerDefaults 1 with text := "B" } :=
  ⟨rfl, by decide⟩

/-- C6, amended: for every state whose layer sequence splits as
`P ++ [L] ++ Q` with L carrying the given id and every slot of P and Q a
proper layer with a different id (the id picks out exactly one layer),
UpdateTextLayer(id, {fontSize: v}) changes only the `fontSize` field of that
layer; every other field of it, every other layer, and the remaining state
fields (baseImage, selectedLayerId, nextLayerId) are unchanged. -/
theorem c6_update_fontSize_isolated (s : EditorState) (i : Nat) (v : Int)
    (P Q : List JsVal) (l : TextLayer)
    (hdecomp : s.textLayers = P ++ some l :: Q)
    (hP : ∀ w ∈ P, isOtherLayer i w = true)
    (hQ : ∀ w ∈ Q, isOtherLayer i w = true)
    (hl : l.id = i) :
    memeEditorReducer s (.updateTextLayer i { fontSize := some v }) =
      .ok { s with textLayers := P ++ some { l with fontSize := v } :: Q } := by
  have hcons : jsMapUpdate i { fontSize := some v } (some l :: Q) =
      .ok (some { l with fontSize := v } :: Q) := by
    rw [jsMapUpdate, jsMapUpdate_skip i _ Q hQ]
    simp [hl, applyPatch]
  have hall := jsMapUpdate_append i { fontSize := some v } P (some l :: Q) P
    (some { l with fontSize := v } :: Q) (jsMapUpdate_skip i _ P hP) hcons
  dsimp only [memeEditorReducer]
  rw [hdecomp, hall]

/-- Witness for the amended C6: updating fontSize of layer 1 in the three
layer state `[id 2, id 1, id 3]` patches only that layer. -/
theorem c6_update_fontSize_isolated_witness :
    memeEditorReducer
        { baseImage := none,
          textLayers := [some (newLayerDefaults 2), some (newLayerDefaults 1),
            some (newLayerDefaults 3)],
          selectedLayerId := some 1, nextLayerId := 4 }
        (.updateTextLayer 1 { fontSize := some 80 }) =
      .ok { baseImage := none,
            textLayers := [some (newLayerDefaults 2),
              some { newLayerDefaults 1 with fontSize := 80 },
              some (newLayerDefaults 3)],
            selectedLayerId := some 1, nextLayerId := 4 } :=
  c6_update_fontSize_isolated _ 1 80 [some (newLayerDefaults 2)]
    [some (newLayerDefaults 3)] (newLayerDefaults 1) rfl (by decide) (by decide) rfl

/-- C7, counterexample: in a state with two layers that share id 1, deleting
id 1 removes both of them — the resulting sequence is empty, not "the
original with exactly that layer removed" (which would have one layer). -/
theorem c7_delete_counterexample :
    memeEditorReducer
        { baseImage := none,
          textLayers := [some { newLayerDefaults 1 with text := "A" },
            some { newLayerDefaults 1 with text := "B" }],
          selectedLayerId := some 1, nextLayerId := 2 }
        (.deleteTextLayer 1) =
      .ok { baseImage := none, textLayers := [], selectedLayerId := none,
            nextLayerId := 2 } ∧
    ([] : List JsVal).length ≠
      ([some { newLayerDefaults 1 with text := "A" },
        some { newLayerDefaults 1 with text := "B" }] : List JsVal).length - 1 :=
  ⟨rfl, by decide⟩

/-- C7, amended: for every state whose layer sequence splits as
`P ++ [L] ++ Q` with L carrying the given id and every slot of P and Q a
proper layer with a different, nonzero id, DeleteTextLayer(id) yields exactly
`P ++ Q` (that layer removed, relative order preserved); if the deleted layer
was selected, the selection becomes the id of the new first layer, or null if
none remain; otherwise the selection is unchanged. -/
theorem c7_delete_postcondition (s : EditorState) (i : Nat)
    (P Q : List JsVal) (l : TextLayer)
    (hdecomp : s.textLayers = P ++ some l :: Q)
    (hP : ∀ w ∈ P, isOtherLayerNZ i w = true)
    (hQ : ∀ w ∈ Q, isOtherLayerNZ i w = true)
    (hl : l.id = i) :
    memeEditorReducer s (.deleteTextLayer i) =
      .ok { s with
              textLayers := P ++ Q,
              selectedLayerId :=
                if s.selectedLayerId = some i then firstIdSpec (P ++ Q)
                else s.selectedLayerId } := by
  have hPok := jsFilterNe_skip i P (fun w hw => isOtherLayerNZ_imp i w (hP w hw))
  have hQok := jsFilterNe_skip i Q (fun w hw => isOtherLayerNZ_imp i w (hQ w hw))
  have hcons : jsFilterNe i (some l :: Q) = .ok Q := by
    rw [jsFilterNe, hQok]
    simp [hl]
  have hall := jsFilterNe_append i P (some l :: Q) P Q hPok hcons
  have hsel : jsHeadSelect (P ++ Q) = firstIdSpec (P ++ Q) := by
    apply jsHeadSelect_eq_firstIdSpec i
    intro w hw
    rcases List.mem_append.mp hw with hw | hw
    · exact hP w hw
    · exact hQ w hw
  dsimp only [memeEditorReducer]
  rw [hdecomp, hall]
  dsimp only
  rw [hsel]

/-- Witness for the amended C7: deleting the selected layer 1 from
`[id 2, id 1, id 3]` leaves `[id 2, id 3]` and selects the new first layer,
id 2. -/
theorem c7_delete_postcondition_witness :
    memeEditorReducer
        { baseImage := none,
          textLayers := [some (newLayerDefaults 2), some (newLayerDefaults 1),
            some (newLayerDefaults 3)],
          selectedLayerId := some 1, nextLayerId := 4 }
        (.deleteTextLayer 1) =
      .ok { baseImage := none,
            textLayers := [some (newLayerDefaults 2), some (newLayerDefaults 3)],
            selectedLayerId := some 2, nextLayerId := 4 } :=
  c7_delete_postcondition _ 1 [some (newLayerDefaults 2)] [some (newLayerDefaults 3)]
    (newLayerDefaults 1) rfl (by decide) (by decide) rfl

/-- C10: SET_BASE_IMAGE replaces `baseImage`, clears the layer list and the
selection, and leaves `nextLayerId` (and nothing else) unchanged; only RESET
returns the counter to its initial value 1. -/
theorem c10_setBaseImage_preserves_nextLayerId (s : EditorState) (u : Option String) :
    memeEditorReducer s (.setBaseImage u) =
      .ok { s with baseImage := u, textLayers := [], selectedLayerId := none } ∧
    memeEditorReducer s .reset = .ok initialState ∧
    initialState.nextLayerId = 1 :=
  ⟨rfl, rfl, rfl⟩

/-- Helper: a successful `find?` returns the first match — the witness sits at
an index below which the predicate fails everywhere. -/
theorem find?_first {α : Type} (p : α → Bool) :
    ∀ (L : List α) (a : α), L.find? p = some a →
      ∃ k, k < L.length ∧ L[k]? = some a ∧ p a = true ∧
        ∀ j, j < k → ∃ b, L[j]? = some b ∧ p b = false := by
  intro L
  induction L with
  | nil => intro a h; cases h
  | cons c L ih =>
      intro a h
      rw [List.find?] at h
      cases hb : p c with
      | true =>
          simp only [hb] at h
          injection h with h
          subst h
          exact ⟨0, by simp, by simp, hb, fun j hj => absurd hj (Nat.not_lt_zero j)⟩
      | false =>
          simp only [hb] at h
          obtain ⟨k, hk, hget, hpa, hfirst⟩ := ih a h
          refine ⟨k + 1, by simpa using Nat.succ_lt_succ hk, by simpa using hget, hpa, ?_⟩
          intro j hj
          cases j with
          | zero => exact ⟨c, by simp, hb⟩
          | succ j₁ =>
              obtain ⟨b, hb₁, hpb⟩ := hfirst j₁ (by omega)
              exact ⟨b, by simpa using hb₁, hpb⟩

/-- C8: when the press hit-test resolves to a layer, that layer sits at some
index k, its axis-aligned bounding box contains the point, and every layer at
a higher index (later in the array, painted on top) does not contain the
point — so the walk from the end of the array returned the topmost hit.
Rotations are ignored: overwriting every layer's rotation field leaves the
resolved layer unchanged (up to the same overwrite). On the hit, dispatching
SELECT_LAYER with the layer's id makes it the selection. -/
theorem c8_hitTest_resolves_topmost (layers : List TextLayer) (x y : Int) :
    (∀ l : TextLayer, hitTest layers x y = some l →
      (∃ k, k < layers.length ∧ layers[k]? = some l ∧ containsPoint l x y = true ∧
          ∀ j, k < j → j < layers.length →
            ∃ t, layers[j]? = some t ∧ containsPoint t x y = false) ∧
      (∀ r : Int, hitTest (layers.map (fun t => { t with rotation := r })) x y =
          some { l with rotation := r }) ∧
      (∀ s : EditorState, memeEditorReducer s (.selectLayer (some l.id)) =
          .ok { s with selectedLayerId := some l.id })) ∧
    (hitTest layers x y = none → ∀ t ∈ layers, containsPoint t x y = false) := by
  refine ⟨fun l h => ⟨?_, ?_, fun s => rfl⟩,
    fun hn t ht => by
      simpa using List.find?_eq_none.mp hn t (List.mem_reverse.mpr ht)⟩
  · obtain ⟨k₁, hk₁, hget, hpa, hfirst⟩ := find?_first _ layers.reverse l h
    have hn : layers.reverse.length = layers.length := List.length_reverse _
    refine ⟨layers.length - 1 - k₁, by omega, ?_, hpa, ?_⟩
    · rw [List.getElem?_reverse (by omega)] at hget
      exact hget
    · intro j hkj hjn
      obtain ⟨b, hb₁, hpb⟩ := hfirst (layers.length - 1 - j) (by omega)
      refine ⟨b, ?_, hpb⟩
      rw [List.getElem?_reverse (by omega)] at hb₁
      have hidx : layers.length - 1 - (layers.length - 1 - j) = j := by omega
      rw [hidx] at hb₁
      exact hb₁
  · intro r
    show (layers.map (fun t => { t with rotation := r })).reverse.find?
        (fun t => containsPoint t x y) = some { l with rotation := r }
    have h₁ : (layers.map (fun t => { t with rotation := r })).reverse =
        layers.reverse.map (fun t => { t with rotation := r }) := by
      simp
    rw [h₁, List.find?_map]
    show (hitTest layers x y).map (fun t => { t with rotation := r }) =
      some { l with rotation := r }
    rw [h]
    rfl

/-- Witness for C8: with a default-position layer 1 and a layer 2 moved to
(40, 40), the point (60, 60) lies inside both boxes and the hit-test resolves
to layer 2, the topmost. -/
theorem c8_hitTest_resolves_topmost_witness :
    ∃ k, k < ([newLayerDefaults 1,
        { newLayerDefaults 2 with x := 40, y := 40 }] : List TextLayer).length ∧
      ([newLayerDefaults 1,
        { newLayerDefaults 2 with x := 40, y := 40 }] : List TextLayer)[k]? =
        some { newLayerDefaults 2 with x := 40, y := 40 } ∧
      containsPoint { newLayerDefaults 2 with x := 40, y := 40 } 60 60 = true ∧
      ∀ j, k < j →
        j < ([newLayerDefaults 1,
          { newLayerDefaults 2 with x := 40, y := 40 }] : List TextLayer).length →
        ∃ t, ([newLayerDefaults 1,
            { newLayerDefaults 2 with x := 40, y := 40 }] : List TextLayer)[j]? =
            some t ∧ containsPoint t 60 60 = false :=
  ((c8_hitTest_resolves_topmost
      [newLayerDefaults 1, { newLayerDefaults 2 with x := 40, y := 40 }] 60 60).1
    { newLayerDefaults 2 with x := 40, y := 40 } rfl).1

/-- C9: the render and share request bodies carry, per layer, exactly the ten
fields text, x, y, fontSize, fontFamily, color, strokeColor, strokeWidth,
textAlign and rotation (the `PayloadLayer` shape), each copied from the
layer; the two builders agree; and the payload never depends on the internal
id, width or height — overwriting those three fields arbitrarily leaves the
payload unchanged. -/
theorem c9_payload_projection (layers : List TextLayer) (j : Nat)
    (idf : TextLayer → Nat) (wf hf : TextLayer → Int) :
    generatePreviewLayers layers = layers.map toPayloadLayer ∧
    handleShareLayers layers = generatePreviewLayers layers ∧
    (generatePreviewLayers layers).length = layers.length ∧
    (generatePreviewLayers layers)[j]? = (layers[j]?).map toPayloadLayer ∧
    (∀ t : TextLayer,
      (toPayloadLayer t).text = t.text ∧ (toPayloadLayer t).x = t.x ∧
      (toPayloadLayer t).y = t.y ∧ (toPayloadLayer t).fontSize = t.fontSize ∧
      (toPayloadLayer t).fontFamily = t.fontFamily ∧
      (toPayloadLayer t).color = t.color ∧
      (toPayloadLayer t).strokeColor = t.strokeColor ∧
      (toPayloadLayer t).strokeWidth = t.strokeWidth ∧
      (toPayloadLayer t).textAlign = t.textAlign ∧
      (toPayloadLayer t).rotation = t.rotation) ∧
    generatePreviewLayers (layers.map (fun t =>
        { t with id := idf t, width := wf t, height := hf t })) =
      generatePreviewLayers layers := by
  refine ⟨rfl, rfl, by simp [generatePreviewLayers], ?_,
    fun t => ⟨rfl, rfl, rfl, rfl, rfl, rfl, rfl, rfl, rfl, rfl⟩, ?_⟩
  · show (layers.map toPayloadLayer)[j]? = (layers[j]?).map toPayloadLayer
    exact List.getElem?_map ..
  · show (layers.map (fun t =>
        { t with id := idf t, width := wf t, height := hf t })).map toPayloadLayer =
      layers.map toPayloadLayer
    rw [List.map_map]
    rfl

end MemeGen
